import Mathlib

/-!
# node-mapcache `bindings.cc`: a shallow embedding

The embedding follows `src/bindings.cc` function by function.  Values of the
host runtime (V8) are modelled by `JsValue`; pointers that may be `NULL` are
`Option`s; opaque handles (pools, files, services) are numbers.  What the file
takes from `geocache.h`, APR and libeio is passed in as records of functions
(`Engine`, `Apr`), so every statement below holds for every behaviour of those
collaborators unless a hypothesis says otherwise.
-/

namespace GeoCacheNode

/-! ## The host runtime's values -/

/-- A V8 value, as far as `bindings.cc` builds or inspects one.  Objects keep
their own properties in insertion order; a function is known by an identity. -/
inductive JsValue where
  | undefined
  | integer (n : Int)
  | date (msec : Int)
  | string (s : String)
  | buffer (bytes : List UInt8)
  | function (id : Nat)
  | error (message : String)
  | typeError (message : String)
  | array (elts : List JsValue)
  | object (props : List (String × JsValue))

namespace JsValue

/-- `v->IsString()`. -/
def IsString : JsValue → Bool
  | string _ => true
  | _ => false

/-- `v->IsFunction()`. -/
def IsFunction : JsValue → Bool
  | function _ => true
  | _ => false

/-- A slot of the callback's argument list is populated when it is not
`Undefined()`. -/
def populated : JsValue → Bool
  | undefined => false
  | _ => true

end JsValue

/-- Own properties of an object, in insertion order. -/
abbrev Props := List (String × JsValue)

/-- `obj->Has(key)` on the own properties (a key that `Object.prototype` also
defines, such as `toString`, is outside what is modelled). -/
def Props.Has : Props → String → Bool
  | [], _ => false
  | (k, _) :: rest, key => if k = key then true else Props.Has rest key

/-- `obj->Get(key)`: the property's value, `Undefined()` when absent. -/
def Props.Get : Props → String → JsValue
  | [], _ => JsValue.undefined
  | (k, v) :: rest, key => if k = key then v else Props.Get rest key

/-- `obj->Set(key, value)`: overwrite in place when the key exists, add the
property at the end otherwise. -/
def Props.Set : Props → String → JsValue → Props
  | [], key, v => [(key, v)]
  | (k, w) :: rest, key, v =>
      if k = key then (k, v) :: rest else (k, w) :: Props.Set rest key v

/-- `Array::New(n)`: an array of `n` holes. -/
def Array_New (n : Nat) : List JsValue := List.replicate n JsValue.undefined

/-- `arr->Set(index, value)` for a `uint32_t` index: an index inside the array
overwrites the element, an index at or past the end grows the array (holes
read as `undefined`) and stores the value last. -/
def Array_Set (elts : List JsValue) (index : Nat) (v : JsValue) : List JsValue :=
  if index < elts.length then elts.set index v
  else elts ++ List.replicate (index - elts.length) JsValue.undefined ++ [v]

/-- `values->Length() - 1` in `uint32_t` arithmetic. -/
def length_minus_one (elts : List JsValue) : Nat :=
  (elts.length % 2 ^ 32 + (2 ^ 32 - 1)) % 2 ^ 32

/-! ## The Response Model (`geocache_http_response`) -/

/-- `geocache_buffer`: `buf` is the allocated memory, `size` the number of
bytes in use. -/
structure geocache_buffer where
  buf : List UInt8
  size : Nat

/-- One `apr_table_entry_t`. -/
structure apr_table_entry_t where
  key : String
  val : String

/-- An `apr_table_t`: its entries in insertion order (`apr_table_elts`). -/
abbrev apr_table_t := List apr_table_entry_t

/-- `geocache_http_response`.  `mtime` is an `apr_time_t` in microseconds
(`0` when unset); `data` and `headers` are pointers and may be `NULL`. -/
structure geocache_http_response where
  code : Int
  mtime : Int
  data : Option geocache_buffer
  headers : Option apr_table_t

/-- `apr_time_as_msec`: microseconds to milliseconds, C integer division. -/
def apr_time_as_msec (t : Int) : Int := Int.tdiv t 1000

/-- `Buffer::New(data, length)`: a buffer holding a copy of the `length` bytes
at `data`. -/
def Buffer_New (data : List UInt8) (length : Nat) : JsValue :=
  JsValue.buffer (data.take length)

/-- Body of the `for` loop of `EIO_GetAfter` (lines 387-400) for one table
entry, on the properties of the `headers` object. -/
def headers_step (headers : Props) (entry : apr_table_entry_t) : Props :=
  let key := entry.key
  let value := JsValue.string entry.val
  if headers.Has key then
    -- the header exists: append the value
    match headers.Get key with
    | JsValue.array values =>
        headers.Set key (JsValue.array (Array_Set values (length_minus_one values) value))
    | _ => headers
  else
    -- create a new header
    headers.Set key (JsValue.array (Array_Set (Array_New 1) 0 value))

/-- The `for` loop of `EIO_GetAfter` (lines 383-401): the `headers` object
built from the table's entries. -/
def marshal_headers (elts : apr_table_t) : Props :=
  elts.foldl headers_step []

/-- Lines 365-403 of `EIO_GetAfter`: the result object for a response. -/
def marshal_response (response : geocache_http_response) : Props :=
  let result : Props := []
  let result := result.Set "code" (JsValue.integer response.code)
  let result :=
    if response.mtime ≠ 0 then
      result.Set "mtime" (JsValue.date (apr_time_as_msec response.mtime))
    else result
  let result :=
    match response.data with
    | some data => result.Set "data" (Buffer_New data.buf data.size)
    | none => result
  let result :=
    match response.headers with
    | some headers =>
        if !headers.isEmpty then
          result.Set "headers" (JsValue.object (marshal_headers headers))
        else result
    | none => result
  result

/-! ## Contexts, requests and the process state -/

/-- An `apr_pool_t*`: the identity of a pool. -/
abbrev apr_pool_t := Nat

/-- An `apr_file_t*`: the identity of an open file. -/
abbrev apr_file_t := Nat

/-- `geocache_context`, as far as `bindings.cc` names its fields: the pool,
the configuration pointer (`NULL` until set) and, in `priv`, everything this
file reaches only through `geocache.h` (the error slot among it). -/
structure geocache_context (X K : Type) where
  pool : apr_pool_t
  config : Option K
  priv : X

/-- `struct geocache_context_fcgi` (lines 42-46). -/
structure geocache_context_fcgi (X K : Type) where
  ctx : geocache_context X K
  mutex_fname : String
  mutex_file : Option apr_file_t

/-- `enum geocache_request_type`: the five tags the `switch` of `EIO_Get`
names, and any other value. -/
inductive geocache_request_type where
  | GEOCACHE_REQUEST_GET_CAPABILITIES
  | GEOCACHE_REQUEST_GET_TILE
  | GEOCACHE_REQUEST_PROXY
  | GEOCACHE_REQUEST_GET_MAP
  | GEOCACHE_REQUEST_GET_FEATUREINFO
  | other (tag : Nat)
  deriving DecidableEq, Repr

/-- What `bindings.cc` calls in the engine and the configuration collaborator
(declared in `geocache.h`, defined outside this repository).  A function that
takes the context pointer may change the context, so it returns the new one;
`Option` is a pointer that may be `NULL`.  `X` is the context's private part,
`K` a configuration tree, `P` a parameter table, `Q` a request object. -/
structure Engine (X K P Q : Type) where
  /-- The private part of a context right after `apr_pcalloc`. -/
  zeroed : X
  geocache_context_init : geocache_context_fcgi X K → geocache_context_fcgi X K
  geocache_configuration_create : apr_pool_t → Option K
  /-- The macro `GC_HAS_ERROR(ctx)`. -/
  GC_HAS_ERROR : geocache_context_fcgi X K → Bool
  /-- `ctx->set_error(ctx, code, message)`, the message already formatted. -/
  set_error : geocache_context_fcgi X K → Nat → String → geocache_context_fcgi X K
  /-- `ctx->clear_errors(ctx)`. -/
  clear_errors : geocache_context_fcgi X K → geocache_context_fcgi X K
  /-- `ctx->get_error_message(ctx)`. -/
  get_error_message : geocache_context_fcgi X K → String
  /-- `geocache_configuration_parse(ctx, filename, ctx->config, 1)`. -/
  geocache_configuration_parse : geocache_context_fcgi X K → String → geocache_context_fcgi X K
  /-- `geocache_configuration_post_config(ctx, ctx->config)`. -/
  geocache_configuration_post_config : geocache_context_fcgi X K → geocache_context_fcgi X K
  /-- `request->type`. -/
  request_type : Q → geocache_request_type
  /-- `request->service`, a pointer known by its identity. -/
  request_service : Q → Nat
  geocache_http_parse_param_string : geocache_context_fcgi X K → String → geocache_context_fcgi X K × P
  /-- `geocache_service_dispatch_request(ctx, &request, pathinfo, params, ctx->config)`. -/
  geocache_service_dispatch_request :
    geocache_context_fcgi X K → String → P → geocache_context_fcgi X K × Option Q
  /-- `geocache_core_respond_to_error(ctx, service)`, `service` possibly `NULL`. -/
  geocache_core_respond_to_error :
    geocache_context_fcgi X K → Option Nat → geocache_context_fcgi X K × Option geocache_http_response
  /-- `geocache_core_get_capabilities(ctx, service, req, url, path_info, ctx->config)`. -/
  geocache_core_get_capabilities :
    geocache_context_fcgi X K → Nat → Q → String → String →
      geocache_context_fcgi X K × Option geocache_http_response
  geocache_core_get_tile :
    geocache_context_fcgi X K → Q → geocache_context_fcgi X K × Option geocache_http_response
  geocache_core_proxy_request :
    geocache_context_fcgi X K → Q → geocache_context_fcgi X K × Option geocache_http_response
  geocache_core_get_map :
    geocache_context_fcgi X K → Q → geocache_context_fcgi X K × Option geocache_http_response
  geocache_core_get_featureinfo :
    geocache_context_fcgi X K → Q → geocache_context_fcgi X K × Option geocache_http_response

/-- The `GeoCache` object: its address `id` (the key of its `ObjectWrap`
reference count in the process state) and `ctx`, which is `globalctx` seen as
a `geocache_context*` and is `NULL` when `fcgi_context_create` failed; `cfg`
is `ctx->config`. -/
structure GeoCache (X K : Type) where
  id : Nat
  ctx : Option (geocache_context_fcgi X K)

/-- `struct cache_request` (lines 115-123). -/
structure cache_request (X K : Type) where
  cb : JsValue
  cache : GeoCache X K
  ctx : geocache_context_fcgi X K
  baseUrl : String
  pathInfo : String
  queryString : String
  response : Option geocache_http_response

/-- A call this file makes into the runtime, APR, libeio or libev, or a line it
writes; the process state keeps them in order. -/
inductive Event where
  | apr_pool_create (pool : apr_pool_t)
  | apr_pool_destroy (pool : apr_pool_t)
  | Persistent_New (f : JsValue)
  | Dispose (f : JsValue)
  | Ref (gc : Nat)
  | Unref (gc : Nat)
  | eio_custom (req_pool : apr_pool_t)
  | ev_ref
  | ev_unref
  | Call (cb : JsValue) (argv : List JsValue)
  | FatalException
  | cout (line : String)
  | stderr (line : String)

/-- The state of the process around the handlers: the global pool, the live
pools, the `ObjectWrap` reference count of each `GeoCache` by address, the
requests handed to libeio and not yet completed, and the calls made so far. -/
structure World (X K : Type) where
  global_pool : Option apr_pool_t
  next_pool : apr_pool_t
  pools : List apr_pool_t
  refs : Nat → Nat
  eio_queue : List (cache_request X K)
  trace : List Event

/-- What a call at the runtime boundary ends in: a returned value, a thrown
exception (`ThrowException`), or a fault (a `NULL` pointer is read). -/
inductive Completion (α : Type) where
  | returned (value : α)
  | thrown (exception : JsValue)
  | fault

/-- Which of the allocations of one call succeed. -/
structure Alloc where
  apr_pool_create : Bool
  cache_request : Bool
  context : Bool
  baseUrl : Bool
  pathInfo : Bool
  queryString : Bool

variable {X K P Q : Type}

/-- Record one call. -/
def World.emit (w : World X K) (e : Event) : World X K :=
  { w with trace := w.trace ++ [e] }

/-- `apr_pool_create(&pool, parent)`: on success a fresh pool. -/
def World.apr_pool_create (w : World X K) (ok : Bool) : World X K × Option apr_pool_t :=
  if ok then
    ({ w with next_pool := w.next_pool + 1, pools := w.pools ++ [w.next_pool],
              trace := w.trace ++ [Event.apr_pool_create w.next_pool] }, some w.next_pool)
  else (w, none)

/-- `apr_pool_destroy(pool)`. -/
def World.apr_pool_destroy (w : World X K) (pool : apr_pool_t) : World X K :=
  { w with pools := w.pools.filter (fun p => p ≠ pool),
           trace := w.trace ++ [Event.apr_pool_destroy pool] }

/-- `ObjectWrap::Ref()` on the object at address `gc`: `refs_++`. -/
def World.Ref (w : World X K) (gc : Nat) : World X K :=
  { w with refs := Function.update w.refs gc (w.refs gc + 1),
           trace := w.trace ++ [Event.Ref gc] }

/-- `ObjectWrap::Unref()` on the object at address `gc`: `--refs_` (node asserts
`refs_ > 0` first). -/
def World.Unref (w : World X K) (gc : Nat) : World X K :=
  { w with refs := Function.update w.refs gc (w.refs gc - 1),
           trace := w.trace ++ [Event.Unref gc] }

/-- `fcgi_context_log` (lines 48-53): the formatted message goes to stderr
whatever the level. -/
def fcgi_context_log (w : World X K) (message : String) : World X K :=
  w.emit (Event.stderr message)

/-- `fcgi_context_create` (lines 98-110); `ok` tells whether `apr_pcalloc`
yields memory. -/
def fcgi_context_create (E : Engine X K P Q) (ok : Bool) (pool : apr_pool_t) :
    Option (geocache_context_fcgi X K) :=
  if !ok then none
  else
    let ctx : geocache_context_fcgi X K :=
      { ctx := { pool := pool, config := none, priv := E.zeroed },
        mutex_fname := "", mutex_file := none }
    let ctx := E.geocache_context_init ctx
    some { ctx with mutex_fname := "/tmp/geocache.fcgi.lock" }

/-! ## The cross-process lock (lines 56-96) -/

/-- The APR file calls of the lock, over a state `O` of the operating system.
A call returns the new state and whether it gave `APR_SUCCESS`;
`apr_file_open` gives the opened file on success and leaves the caller's
pointer alone otherwise. -/
structure Apr (O : Type) where
  apr_file_open : O → String → O × Option apr_file_t
  apr_file_lock : O → apr_file_t → O × Bool
  apr_file_unlock : O → apr_file_t → O × Bool
  apr_file_close : O → apr_file_t → O × Bool

/-- An APR file call, as recorded in the order the lock makes them. -/
inductive AprCall where
  | apr_file_open (fname : String)
  | apr_file_lock (file : apr_file_t)
  | apr_file_unlock (file : apr_file_t)
  | apr_file_close (file : apr_file_t)
  deriving DecidableEq, Repr

/-- The lock handle together with the operating system's state and the APR
calls made so far. -/
structure LockState (O X K : Type) where
  os : O
  ctx : geocache_context_fcgi X K
  calls : List AprCall

/-- `geocache_fcgi_mutex_aquire` (lines 56-76).  `DEBUG` tells whether the
file is compiled with `DEBUG` defined.  The function returns when
`apr_file_lock` does. -/
def geocache_fcgi_mutex_aquire {O : Type} (DEBUG : Bool) (E : Engine X K P Q) (A : Apr O)
    (s : LockState O X K) : LockState O X K :=
  if DEBUG && s.ctx.mutex_file.isSome then
    { s with ctx := E.set_error s.ctx 500 "SEVERE: fcgi recursive mutex acquire" }
  else
    let opened := A.apr_file_open s.os s.ctx.mutex_fname
    let calls := s.calls ++ [AprCall.apr_file_open s.ctx.mutex_fname]
    match opened.2 with
    | none =>
        { os := opened.1, calls := calls,
          ctx := E.set_error s.ctx 500
            ("failed to create fcgi mutex lockfile " ++ s.ctx.mutex_fname) }
    | some file =>
        let ctx := { s.ctx with mutex_file := some file }
        let locked := A.apr_file_lock opened.1 file
        let calls := calls ++ [AprCall.apr_file_lock file]
        if !locked.2 then
          { os := locked.1, calls := calls,
            ctx := E.set_error ctx 500 ("failed to lock fcgi mutex file " ++ ctx.mutex_fname) }
        else { os := locked.1, calls := calls, ctx := ctx }

/-- `geocache_fcgi_mutex_release` (lines 78-96).  Without `DEBUG` a `NULL`
`mutex_file` is handed to `apr_file_unlock`, which reads through it: `none`. -/
def geocache_fcgi_mutex_release {O : Type} (DEBUG : Bool) (E : Engine X K P Q) (A : Apr O)
    (s : LockState O X K) : Option (LockState O X K) :=
  if DEBUG && s.ctx.mutex_file.isNone then
    some { s with ctx := E.set_error s.ctx 500 "SEVERE: fcgi mutex unlock on unlocked file" }
  else
    match s.ctx.mutex_file with
    | none => none
    | some file =>
        let unlocked := A.apr_file_unlock s.os file
        let ctx :=
          if !unlocked.2 then
            E.set_error s.ctx 500 ("failed to unlock fcgi mutex file" ++ s.ctx.mutex_fname)
          else s.ctx
        let closed := A.apr_file_close unlocked.1 file
        let ctx :=
          if !closed.2 then
            E.set_error ctx 500 ("failed to close fcgi mutex file " ++ ctx.mutex_fname)
          else ctx
        some { os := closed.1,
               calls := s.calls ++ [AprCall.apr_file_unlock file, AprCall.apr_file_close file],
               ctx := { ctx with mutex_file := none } }

/-! ## Argument checks (lines 22-35) -/

/-- `REQ_STR_ARG(I, VAR)`: the string at position `I`, or the `TypeError` the
macro throws. -/
def REQ_STR_ARG (args : List JsValue) (I : Nat) : Except JsValue String :=
  if args.length ≤ I then
    Except.error (JsValue.typeError ("Argument " ++ toString I ++ " must be a string"))
  else
    match args.getD I JsValue.undefined with
    | JsValue.string s => Except.ok s
    | _ => Except.error (JsValue.typeError ("Argument " ++ toString I ++ " must be a string"))

/-- `REQ_FUN_ARG(I, VAR)`: the function at position `I`, or the `TypeError` the
macro throws. -/
def REQ_FUN_ARG (args : List JsValue) (I : Nat) : Except JsValue JsValue :=
  if args.length ≤ I then
    Except.error (JsValue.typeError ("Argument " ++ toString I ++ " must be a function"))
  else
    match args.getD I JsValue.undefined with
    | JsValue.function id => Except.ok (JsValue.function id)
    | _ => Except.error (JsValue.typeError ("Argument " ++ toString I ++ " must be a function"))

/-! ## `GeoCache::New` (lines 184-219) -/

/-- Lines 193-196 of `New`: the global pool, created when there is none yet. -/
def New_global_pool (w : World X K) (a : Alloc) : Option (World X K × apr_pool_t) :=
  match w.global_pool with
  | some pool => some (w, pool)
  | none =>
      match (w.apr_pool_create a.apr_pool_create).2 with
      | some pool =>
          some ({ (w.apr_pool_create a.apr_pool_create).1 with global_pool := some pool }, pool)
      | none => none

/-- The constructor `GeoCache()` (lines 164-175), `addr` being the address of
the new object: its `ctx`, with the configuration created in its pool. -/
def GeoCache_ctor (E : Engine X K P Q) (a : Alloc) (global_pool : apr_pool_t) (addr : Nat) :
    GeoCache X K :=
  match fcgi_context_create E a.context global_pool with
  | some globalctx =>
      { id := addr,
        ctx := some { globalctx with
          ctx := { globalctx.ctx with
            config := E.geocache_configuration_create globalctx.ctx.pool } } }
  | none => { id := addr, ctx := none }

/-- `GeoCache::New` (lines 184-219). -/
def New (E : Engine X K P Q) (w : World X K) (args : List JsValue) (a : Alloc) (addr : Nat) :
    World X K × Completion (GeoCache X K) :=
  if args.length ≠ 1 then
    (w, Completion.thrown (JsValue.error "usage: new GeoCache(configfile)"))
  else
    match REQ_STR_ARG args 0 with
    | Except.error e => (w, Completion.thrown e)
    | Except.ok conffile =>
        match New_global_pool w a with
        | none =>
            (w, Completion.thrown (JsValue.error "Could not create the geocache context pool"))
        | some (w, global_pool) =>
            let gc := GeoCache_ctor E a global_pool addr
            let w := w.emit (Event.cout "Instantiating")
            match gc.ctx with
            | none => (w, Completion.fault)
            | some ctx =>
                let w := fcgi_context_log w ("geocache node conf file: " ++ conffile)
                let ctx := E.geocache_configuration_parse ctx conffile
                if E.GC_HAS_ERROR ctx then
                  (fcgi_context_log w
                      ("failed to parse " ++ conffile ++ ": " ++ E.get_error_message ctx),
                    Completion.thrown (JsValue.error "failed to parse configuration file"))
                else
                  let ctx := E.geocache_configuration_post_config ctx
                  if E.GC_HAS_ERROR ctx then
                    (fcgi_context_log w
                        ("post-config failed for " ++ conffile ++ ": " ++ E.get_error_message ctx),
                      Completion.thrown (JsValue.error "post-config failed"))
                  else (w, Completion.returned { gc with ctx := some ctx })

/-! ## `GeoCache::GetAsync` (lines 221-283) -/

/-- Lines 233-282 of `GetAsync`, once the four arguments are checked. -/
def GetAsync_submit (E : Engine X K P Q) (w : World X K) (cache : GeoCache X K)
    (baseUrl pathInfo queryString : String) (cb : JsValue) (a : Alloc) :
    World X K × Completion JsValue :=
  -- create the pool for this request
  match (w.apr_pool_create a.apr_pool_create).2 with
  | none =>
      (w, Completion.thrown (JsValue.error "Could not create the geocache request memory pool"))
  | some req_pool =>
      let w := (w.apr_pool_create a.apr_pool_create).1
      if !a.cache_request then
        (w.apr_pool_destroy req_pool,
          Completion.thrown (JsValue.error "malloc in GeoCache::GetAsync failed."))
      else
        match fcgi_context_create E a.context req_pool with
        | none =>
            (w.apr_pool_destroy req_pool,
              Completion.thrown (JsValue.error "Could not create the request context."))
        | some req_ctx =>
            match cache.ctx with
            | none => (w, Completion.fault)
            | some cache_ctx =>
                let ctx := { req_ctx with ctx := { req_ctx.ctx with config := cache_ctx.ctx.config } }
                let w := w.emit (Event.Persistent_New cb)
                if !a.baseUrl then
                  (w.apr_pool_destroy req_pool,
                    Completion.thrown (JsValue.error "malloc in GeoCache::GetAsync failed."))
                else if !a.pathInfo then
                  (w.apr_pool_destroy req_pool,
                    Completion.thrown (JsValue.error "malloc in GeoCache::GetAsync failed."))
                else if !a.queryString then
                  (w.apr_pool_destroy req_pool,
                    Completion.thrown (JsValue.error "malloc in GeoCache::GetAsync failed."))
                else
                  let cache_req : cache_request X K :=
                    { cb := cb, cache := cache, ctx := ctx, baseUrl := baseUrl,
                      pathInfo := pathInfo, queryString := queryString, response := none }
                  -- increment reference count so cache is not garbage collected
                  let w := w.Ref cache.id
                  let w := { w with eio_queue := w.eio_queue ++ [cache_req],
                                    trace := w.trace ++ [Event.eio_custom req_pool] }
                  let w := w.emit Event.ev_ref
                  (w, Completion.returned JsValue.undefined)

/-- `GeoCache::GetAsync` (lines 221-283); `cache` is the object `args.This()`
wraps. -/
def GetAsync (E : Engine X K P Q) (w : World X K) (cache : GeoCache X K) (args : List JsValue)
    (a : Alloc) : World X K × Completion JsValue :=
  if args.length ≠ 4 then
    (w, Completion.thrown
      (JsValue.error "usage: cache.get(baseUrl, pathInfo, queryString, callback)"))
  else
    match REQ_STR_ARG args 0 with
    | Except.error e => (w, Completion.thrown e)
    | Except.ok baseUrl =>
    match REQ_STR_ARG args 1 with
    | Except.error e => (w, Completion.thrown e)
    | Except.ok pathInfo =>
    match REQ_STR_ARG args 2 with
    | Except.error e => (w, Completion.thrown e)
    | Except.ok queryString =>
    match REQ_FUN_ARG args 3 with
    | Except.error e => (w, Completion.thrown e)
    | Except.ok cb => GetAsync_submit E w cache baseUrl pathInfo queryString cb a

/-! ## `GeoCache::EIO_Get` (lines 288-347) -/

/-- Lines 297-299 of `EIO_Get`: parse the query string and classify the
request.  The result is the context and `request`. -/
def EIO_Get_classify (E : Engine X K P Q) (cache_req : cache_request X K) :
    geocache_context_fcgi X K × Option Q :=
  let parsed := E.geocache_http_parse_param_string cache_req.ctx cache_req.queryString
  E.geocache_service_dispatch_request parsed.1 cache_req.pathInfo parsed.2

/-- The `switch` of `EIO_Get` (lines 303-332) on a request that is not `NULL`.
The result is the context and `http_response`. -/
def EIO_Get_operation (E : Engine X K P Q) (cache_req : cache_request X K)
    (ctx : geocache_context_fcgi X K) (request : Q) :
    geocache_context_fcgi X K × Option geocache_http_response :=
  match E.request_type request with
  | geocache_request_type.GEOCACHE_REQUEST_GET_CAPABILITIES =>
      E.geocache_core_get_capabilities ctx (E.request_service request) request
        cache_req.baseUrl cache_req.pathInfo
  | geocache_request_type.GEOCACHE_REQUEST_GET_TILE => E.geocache_core_get_tile ctx request
  | geocache_request_type.GEOCACHE_REQUEST_PROXY => E.geocache_core_proxy_request ctx request
  | geocache_request_type.GEOCACHE_REQUEST_GET_MAP => E.geocache_core_get_map ctx request
  | geocache_request_type.GEOCACHE_REQUEST_GET_FEATUREINFO =>
      E.geocache_core_get_featureinfo ctx request
  | geocache_request_type.other _ =>
      (E.set_error ctx 500 "###BUG### unknown request type", none)

/-- Lines 297-337 of `EIO_Get`: everything before the test `!http_response`.
The result is the context, `request` and `http_response`. -/
def EIO_Get_dispatch (E : Engine X K P Q) (cache_req : cache_request X K) :
    geocache_context_fcgi X K × Option Q × Option geocache_http_response :=
  let classified := EIO_Get_classify E cache_req
  let ctx := classified.1
  match classified.2 with
  | none =>
      let r := E.geocache_core_respond_to_error ctx none
      (r.1, none, r.2)
  | some request =>
      if E.GC_HAS_ERROR ctx then
        let r := E.geocache_core_respond_to_error ctx (some (E.request_service request))
        (r.1, some request, r.2)
      else
        let op := EIO_Get_operation E cache_req ctx request
        if E.GC_HAS_ERROR op.1 then
          let r := E.geocache_core_respond_to_error op.1 (some (E.request_service request))
          (r.1, some request, r.2)
        else (op.1, some request, op.2)

/-- `GeoCache::EIO_Get` (lines 288-347): the request with the response stored,
or `none` when line 341 reads `request->service` through a `NULL` request. -/
def EIO_Get (E : Engine X K P Q) (cache_req : cache_request X K) :
    Option (cache_request X K) :=
  let d := EIO_Get_dispatch E cache_req
  match d.2.2 with
  | some http_response => some { cache_req with ctx := d.1, response := some http_response }
  | none =>
      let ctx := E.set_error d.1 500 "###BUG### NULL response"
      match d.2.1 with
      | none => none
      | some request =>
          let r := E.geocache_core_respond_to_error ctx (some (E.request_service request))
          some { cache_req with ctx := r.1, response := r.2 }

/-! ## `GeoCache::EIO_GetAfter` (lines 349-425) -/

/-- Lines 358-407 of `EIO_GetAfter`: the two slots of `argv`. -/
def EIO_GetAfter_argv (cache_req : cache_request X K) : List JsValue :=
  match cache_req.response with
  | none =>
      [JsValue.error "No response was received from the cache", JsValue.undefined]
  | some response => [JsValue.undefined, JsValue.object (marshal_response response)]

/-- `GeoCache::EIO_GetAfter` (lines 349-425).  `HasCaught` tells whether the
callback raised; `FatalException` then hands the exception to the runtime. -/
def EIO_GetAfter (E : Engine X K P Q) (w : World X K) (cache_req : cache_request X K)
    (HasCaught : Bool) : World X K :=
  let w := w.emit Event.ev_unref
  let gc := cache_req.cache
  let ctx := cache_req.ctx
  let argv := EIO_GetAfter_argv cache_req
  -- pass the results to the user specified callback function
  let w := w.emit (Event.Call cache_req.cb argv)
  let w := if HasCaught then w.emit Event.FatalException else w
  -- clean up
  let w := w.emit (Event.Dispose cache_req.cb)
  let w := w.Unref gc.id
  let ctx := E.clear_errors ctx
  w.apr_pool_destroy ctx.ctx.pool

/-! ## Requests over time -/

/-- What happens to a process: a call of `get` on a handle, or libeio running
the completion handler of the `i`-th request in flight, the worker having left
`response` in it. -/
inductive Step (X K : Type) where
  | get (cache : GeoCache X K) (args : List JsValue) (a : Alloc)
  | complete (i : Nat) (response : Option geocache_http_response) (HasCaught : Bool)

/-- One step of the process. -/
def step (E : Engine X K P Q) (w : World X K) : Step X K → World X K
  | Step.get cache args a => (GetAsync E w cache args a).1
  | Step.complete i response HasCaught =>
      match w.eio_queue.get? i with
      | none => w
      | some cache_req =>
          EIO_GetAfter E { w with eio_queue := w.eio_queue.eraseIdx i }
            { cache_req with response := response } HasCaught

/-- A sequence of steps. -/
def run (E : Engine X K P Q) (w : World X K) (steps : List (Step X K)) : World X K :=
  steps.foldl (step E) w

/-- The number of requests in flight on the handle at address `gc`. -/
def in_flight (w : World X K) (gc : Nat) : Nat :=
  w.eio_queue.countP (fun r => r.cache.id = gc)

/-- The callback invocations among recorded calls. -/
def callback_calls : List Event → List (JsValue × List JsValue)
  | [] => []
  | Event.Call cb argv :: rest => (cb, argv) :: callback_calls rest
  | _ :: rest => callback_calls rest

/-! ## Definitions used to state the properties -/

/-- The value the table holds last under a name, if any. -/
def last_val (elts : apr_table_t) (k : String) : Option String :=
  ((elts.filter (fun e => e.key = k)).getLast?).map (fun e => e.val)

/-- What the loop has built after the entries `pre`. -/
def headers_inv (h : Props) (pre : apr_table_t) : Prop :=
  ∀ k, Props.Has h k = (last_val pre k).isSome ∧
    Props.Get h k = (match last_val pre k with
      | some v => JsValue.array [JsValue.string v]
      | none => JsValue.undefined)

/-- Every reference count is its base value plus the requests in flight on
that handle. -/
def balanced (base : Nat → Nat) (w : World X K) : Prop :=
  ∀ gc, w.refs gc = base gc + in_flight w gc

/-! ## A small engine, to evaluate the handlers on concrete inputs -/

/-- The private part of the sample context: the errors set and not yet
cleared, oldest first. -/
abbrev SampleX := List (Nat × String)

/-- A sample request object: its type tag and its service. -/
abbrev SampleQ := geocache_request_type × Nat

/-- The context of the sample engine (the configuration tree is the name of
the file it was read from). -/
abbrev SampleCtx := geocache_context_fcgi SampleX String

/-- `set_error` of the sample engine: append the error. -/
def sample_set_error (c : SampleCtx) (code : Nat) (message : String) : SampleCtx :=
  { c with ctx := { c.ctx with priv := c.ctx.priv ++ [(code, message)] } }

/-- The error response of the sample engine: the code of the error set last
(500 when there is none), no payload. -/
def sample_error_response (c : SampleCtx) : geocache_http_response :=
  { code := ((c.ctx.priv.getLast?.map (fun e => e.1)).getD 500 : Nat), mtime := 0,
    data := none, headers := none }

/-- A sample engine: `/wms` is a capabilities request, `/tile` a tile request
that fails with 404, `/map` a map request that yields no response, `/odd` a
request of an unknown type, anything else is not a service; only
`/etc/geocache.xml` and `/etc/unlinked.xml` parse, and the latter fails the
post-configuration pass. -/
def sample_engine : Engine SampleX String String SampleQ where
  zeroed := []
  geocache_context_init := fun c => c
  geocache_configuration_create := fun _ => some ""
  GC_HAS_ERROR := fun c => !c.ctx.priv.isEmpty
  set_error := sample_set_error
  clear_errors := fun c => { c with ctx := { c.ctx with priv := [] } }
  get_error_message := fun c => (c.ctx.priv.getLast?.map (fun e => e.2)).getD ""
  geocache_configuration_parse := fun c conffile =>
    if conffile = "/etc/geocache.xml" ∨ conffile = "/etc/unlinked.xml" then
      { c with ctx := { c.ctx with config := some conffile } }
    else sample_set_error c 500 "failed to open file"
  geocache_configuration_post_config := fun c =>
    if c.ctx.config = some "/etc/unlinked.xml" then
      sample_set_error c 400 "source references an unknown cache"
    else c
  request_type := fun q => q.1
  request_service := fun q => q.2
  geocache_http_parse_param_string := fun c queryString => (c, queryString)
  geocache_service_dispatch_request := fun c pathInfo _ =>
    if pathInfo = "/wms" then
      (c, some (geocache_request_type.GEOCACHE_REQUEST_GET_CAPABILITIES, 1))
    else if pathInfo = "/tile" then
      (c, some (geocache_request_type.GEOCACHE_REQUEST_GET_TILE, 2))
    else if pathInfo = "/map" then
      (c, some (geocache_request_type.GEOCACHE_REQUEST_GET_MAP, 1))
    else if pathInfo = "/odd" then (c, some (geocache_request_type.other 99, 1))
    else (sample_set_error c 404 "unknown service", none)
  geocache_core_respond_to_error := fun c _ => (c, some (sample_error_response c))
  geocache_core_get_capabilities := fun c _ _ _ _ =>
    (c, some { code := 200, mtime := 0, data := some { buf := [60, 0, 62, 0], size := 3 },
               headers := some [⟨"Content-Type", "text/xml"⟩] })
  geocache_core_get_tile := fun c _ =>
    (sample_set_error c 404 "tile not found",
      some { code := 200, mtime := 0, data := none, headers := none })
  geocache_core_proxy_request := fun c _ => (c, none)
  geocache_core_get_map := fun c _ => (c, none)
  geocache_core_get_featureinfo := fun c _ => (c, none)

/-- A fresh sample context in pool `pool`. -/
def sample_ctx (pool : apr_pool_t) : SampleCtx :=
  { ctx := { pool := pool, config := some "/etc/geocache.xml", priv := [] },
    mutex_fname := "/tmp/geocache.fcgi.lock", mutex_file := none }

/-- A sample Cache Handle at address 7. -/
def sample_cache : GeoCache SampleX String := { id := 7, ctx := some (sample_ctx 0) }

/-- A sample request for `pathInfo`, with callback number 1. -/
def sample_request (pathInfo : String) : cache_request SampleX String :=
  { cb := JsValue.function 1, cache := sample_cache, ctx := sample_ctx 1,
    baseUrl := "http://x/", pathInfo := pathInfo, queryString := "SERVICE=WMS",
    response := none }

/-- A process in which nothing has happened yet but the global pool exists. -/
def sample_world : World SampleX String :=
  { global_pool := some 0, next_pool := 1, pools := [0], refs := fun _ => 0,
    eio_queue := [], trace := [] }

/-- Every allocation succeeds. -/
def alloc_ok : Alloc :=
  { apr_pool_create := true, cache_request := true, context := true, baseUrl := true,
    pathInfo := true, queryString := true }

/-- A sample operating system: the state is the number of files opened so
far, every call succeeds and `apr_file_open` yields a new file each time. -/
def sample_apr : Apr Nat where
  apr_file_open := fun os _ => (os + 1, some (os + 1))
  apr_file_lock := fun os _ => (os, true)
  apr_file_unlock := fun os _ => (os, true)
  apr_file_close := fun os _ => (os, true)

/-- A lock handle that is not held, before any APR call. -/
def sample_lock : LockState Nat SampleX String :=
  { os := 0, ctx := sample_ctx 1, calls := [] }

/-! ## Theorems -/

theorem Props.Get_Set (h : Props) (k k' : String) (v : JsValue) :
    Props.Get (Props.Set h k v) k' = if k = k' then v else Props.Get h k' := by
  induction h with
  | nil => simp [Props.Set, Props.Get]
  | cons p rest ih =>
      obtain ⟨a, b⟩ := p
      by_cases hak : a = k
      · subst hak
        by_cases hk : a = k' <;> simp [Props.Set, Props.Get, hk]
      · by_cases hk : k = k'
        · subst hk
          simp [Props.Set, Props.Get, hak, ih]
        · by_cases hak' : a = k'
          · subst hak'
            simp [Props.Set, Props.Get, hak, hk]
          · simp [Props.Set, Props.Get, hak, hak', hk, ih]

theorem Props.Has_Set (h : Props) (k k' : String) (v : JsValue) :
    Props.Has (Props.Set h k v) k' = (decide (k = k') || Props.Has h k') := by
  induction h with
  | nil => simp [Props.Set, Props.Has]
  | cons p rest ih =>
      obtain ⟨a, b⟩ := p
      by_cases hak : a = k
      · subst hak
        by_cases hk : a = k' <;> simp [Props.Set, Props.Has, hk]
      · by_cases hk : k = k'
        · subst hk
          simp [Props.Set, Props.Has, hak, ih]
        · by_cases hak' : a = k'
          · subst hak'
            simp [Props.Set, Props.Has, hak, hk]
          · simp [Props.Set, Props.Has, hak, hak', hk, ih]

theorem last_val_snoc (pre : apr_table_t) (e : apr_table_entry_t) (k : String) :
    last_val (pre ++ [e]) k = if e.key = k then some e.val else last_val pre k := by
  unfold last_val
  by_cases h : e.key = k
  · simp [List.filter_append, h, List.getLast?_append]
  · simp [List.filter_append, h]

theorem headers_step_eq (h : Props) (pre : apr_table_t) (e : apr_table_entry_t)
    (hinv : headers_inv h pre) :
    headers_step h e = Props.Set h e.key (JsValue.array [JsValue.string e.val]) := by
  unfold headers_step
  obtain ⟨hHas, hGet⟩ := hinv e.key
  cases hl : last_val pre e.key with
  | none =>
      rw [hl] at hHas
      simp [hHas, Array_Set, Array_New]
  | some v =>
      rw [hl] at hHas hGet
      simp [hHas, hGet, Array_Set, length_minus_one]

theorem headers_inv_step (h : Props) (pre : apr_table_t) (e : apr_table_entry_t)
    (hinv : headers_inv h pre) : headers_inv (headers_step h e) (pre ++ [e]) := by
  rw [headers_step_eq h pre e hinv]
  intro k
  rw [Props.Has_Set, Props.Get_Set, last_val_snoc]
  obtain ⟨hHas, hGet⟩ := hinv k
  by_cases hk : e.key = k
  · simp [hk]
  · simp [hk, hHas, hGet]

theorem headers_inv_foldl (rest : apr_table_t) :
    ∀ (h : Props) (pre : apr_table_t), headers_inv h pre →
      headers_inv (rest.foldl headers_step h) (pre ++ rest) := by
  induction rest with
  | nil => intro h pre hinv; simpa using hinv
  | cons e rest ih =>
      intro h pre hinv
      have := ih (headers_step h e) (pre ++ [e]) (headers_inv_step h pre e hinv)
      simpa using this

theorem marshal_headers_inv (elts : apr_table_t) : headers_inv (marshal_headers elts) elts := by
  have := headers_inv_foldl elts [] [] (by intro k; simp [Props.Has, Props.Get, last_val])
  simpa [marshal_headers] using this

theorem callback_calls_append (l l' : List Event) :
    callback_calls (l ++ l') = callback_calls l ++ callback_calls l' := by
  induction l with
  | nil => simp [callback_calls]
  | cons e rest ih => cases e <;> simp [callback_calls, ih]

theorem EIO_GetAfter_trace (E : Engine X K P Q) (w : World X K)
    (cache_req : cache_request X K) (HasCaught : Bool) :
    (EIO_GetAfter E w cache_req HasCaught).trace
      = w.trace ++ [Event.ev_unref, Event.Call cache_req.cb (EIO_GetAfter_argv cache_req)]
          ++ (if HasCaught then [Event.FatalException] else [])
          ++ [Event.Dispose cache_req.cb, Event.Unref cache_req.cache.id,
              Event.apr_pool_destroy (E.clear_errors cache_req.ctx).ctx.pool] := by
  cases HasCaught <;>
    simp [EIO_GetAfter, World.emit, World.Unref, World.apr_pool_destroy]

/-- C1 (code defect): on a table with two values under one name the loop of
`EIO_GetAfter` writes the second value over the first (`values->Length() - 1`
is the index of the last element, not the one after it), so the `headers`
object of the result holds `["b"]` where the claim asks for `["a", "b"]`; and
for every table, under every name in it, the array holds one value only, the
one inserted last. -/
theorem headers_duplicate_name_keeps_last_only :
    EIO_GetAfter_argv
        { sample_request "/wms" with
          response := some { code := 200, mtime := 0, data := none,
                             headers := some [⟨"Set-Cookie", "a"⟩, ⟨"Set-Cookie", "b"⟩] } }
      = [JsValue.undefined,
         JsValue.object
           [("code", JsValue.integer 200),
            ("headers", JsValue.object [("Set-Cookie", JsValue.array [JsValue.string "b"])])]]
    ∧ ∀ (elts : apr_table_t) (e : apr_table_entry_t), e ∈ elts →
        ∃ v, last_val elts e.key = some v ∧
          Props.Get (marshal_headers elts) e.key = JsValue.array [JsValue.string v] := by
  refine ⟨by rfl, ?_⟩
  intro elts e he
  have hne : (elts.filter (fun x => x.key = e.key)) ≠ [] := by
    intro h
    have : e ∈ elts.filter (fun x => x.key = e.key) := by
      simp [List.mem_filter, he]
    rw [h] at this
    simp at this
  obtain ⟨hHas, hGet⟩ := marshal_headers_inv elts e.key
  cases hl : last_val elts e.key with
  | none =>
      unfold last_val at hl
      simp at hl
      exact absurd hl (by simpa using hne)
  | some v =>
      rw [hl] at hGet
      exact ⟨v, rfl, hGet⟩

/-- C2: `EIO_GetAfter` invokes the request's callback once, whether a response
is attached or not, with two slots of which one is populated:
`(Error, undefined)` without a response, `(undefined, result object)` with
one. -/
theorem EIO_GetAfter_callback_once (E : Engine X K P Q) (w : World X K)
    (cache_req : cache_request X K) (HasCaught : Bool) :
    callback_calls (EIO_GetAfter E w cache_req HasCaught).trace
        = callback_calls w.trace ++ [(cache_req.cb, EIO_GetAfter_argv cache_req)]
    ∧ (match cache_req.response with
       | none =>
           EIO_GetAfter_argv cache_req
             = [JsValue.error "No response was received from the cache", JsValue.undefined]
       | some response =>
           EIO_GetAfter_argv cache_req
             = [JsValue.undefined, JsValue.object (marshal_response response)])
    ∧ ∃ a0 a1, EIO_GetAfter_argv cache_req = [a0, a1] ∧ (a0.populated != a1.populated) = true := by
  refine ⟨?_, ?_, ?_⟩
  · rw [EIO_GetAfter_trace]
    cases HasCaught <;> simp [callback_calls_append, callback_calls]
  · cases h : cache_req.response <;> simp [EIO_GetAfter_argv, h]
  · cases h : cache_req.response with
    | none =>
        exact ⟨JsValue.error "No response was received from the cache", JsValue.undefined,
          by simp [EIO_GetAfter_argv, h], by rfl⟩
    | some r =>
        exact ⟨JsValue.undefined, JsValue.object (marshal_response r),
          by simp [EIO_GetAfter_argv, h], by rfl⟩

theorem marshal_response_data (response : geocache_http_response) (data : geocache_buffer)
    (hd : response.data = some data) :
    Props.Get (marshal_response response) "data" = Buffer_New data.buf data.size := by
  unfold marshal_response
  simp only [hd]
  cases hh : response.headers with
  | none => by_cases hm : response.mtime = 0 <;> simp [hm, Props.Get_Set]
  | some headers =>
      by_cases hm : response.mtime = 0 <;> cases he : headers.isEmpty <;>
        simp [hm, he, Props.Get_Set]

/-- C3: when the response carries a payload of `size` bytes, the `data` buffer
of the result object handed to the callback has exactly `size` bytes, the
first `size` bytes of the payload, whatever their values (zero included). -/
theorem data_buffer_has_recorded_size (cache_req : cache_request X K)
    (response : geocache_http_response) (data : geocache_buffer)
    (hr : cache_req.response = some response) (hd : response.data = some data)
    (hsize : data.size ≤ data.buf.length) :
    EIO_GetAfter_argv cache_req = [JsValue.undefined, JsValue.object (marshal_response response)]
    ∧ ∃ bytes, Props.Get (marshal_response response) "data" = JsValue.buffer bytes
        ∧ bytes.length = data.size ∧ bytes = data.buf.take data.size := by
  refine ⟨by simp [EIO_GetAfter_argv, hr], data.buf.take data.size, ?_, ?_, rfl⟩
  · rw [marshal_response_data response data hd]; rfl
  · simp [List.length_take, hsize]

/-- C3 on a payload with zero bytes inside: four of the five allocated bytes
are in use and the buffer holds those four. -/
theorem data_buffer_has_recorded_size_witness :
    (4 : Nat) ≤ ([137, 0, 80, 0, 9] : List UInt8).length
    ∧ ∃ bytes,
        Props.Get (marshal_response
            { code := 200, mtime := 1000000,
              data := some { buf := [137, 0, 80, 0, 9], size := 4 },
              headers := some [⟨"Content-Type", "image/png"⟩] }) "data" = JsValue.buffer bytes
        ∧ bytes.length = 4 ∧ bytes = [137, 0, 80, 0] :=
  ⟨by decide,
   (data_buffer_has_recorded_size
      { sample_request "/tile" with
        response := some { code := 200, mtime := 1000000,
                           data := some { buf := [137, 0, 80, 0, 9], size := 4 },
                           headers := some [⟨"Content-Type", "image/png"⟩] } }
      { code := 200, mtime := 1000000,
        data := some { buf := [137, 0, 80, 0, 9], size := 4 },
        headers := some [⟨"Content-Type", "image/png"⟩] }
      { buf := [137, 0, 80, 0, 9], size := 4 } rfl rfl (by decide)).2⟩

theorem EIO_Get_dispatch_none (E : Engine X K P Q) (cache_req : cache_request X K)
    (hreq : (EIO_Get_classify E cache_req).2 = none) :
    EIO_Get_dispatch E cache_req
      = ((E.geocache_core_respond_to_error (EIO_Get_classify E cache_req).1 none).1, none,
         (E.geocache_core_respond_to_error (EIO_Get_classify E cache_req).1 none).2) := by
  simp only [EIO_Get_dispatch, hreq]

theorem EIO_Get_dispatch_some (E : Engine X K P Q) (cache_req : cache_request X K) (request : Q)
    (hreq : (EIO_Get_classify E cache_req).2 = some request) :
    EIO_Get_dispatch E cache_req
      = if E.GC_HAS_ERROR (EIO_Get_classify E cache_req).1 then
          ((E.geocache_core_respond_to_error (EIO_Get_classify E cache_req).1
              (some (E.request_service request))).1, some request,
           (E.geocache_core_respond_to_error (EIO_Get_classify E cache_req).1
              (some (E.request_service request))).2)
        else if E.GC_HAS_ERROR
            (EIO_Get_operation E cache_req (EIO_Get_classify E cache_req).1 request).1 then
          ((E.geocache_core_respond_to_error
              (EIO_Get_operation E cache_req (EIO_Get_classify E cache_req).1 request).1
              (some (E.request_service request))).1, some request,
           (E.geocache_core_respond_to_error
              (EIO_Get_operation E cache_req (EIO_Get_classify E cache_req).1 request).1
              (some (E.request_service request))).2)
        else
          ((EIO_Get_operation E cache_req (EIO_Get_classify E cache_req).1 request).1,
           some request,
           (EIO_Get_operation E cache_req (EIO_Get_classify E cache_req).1 request).2) := by
  simp only [EIO_Get_dispatch, hreq]

theorem EIO_Get_dispatch_request (E : Engine X K P Q) (cache_req : cache_request X K) :
    (EIO_Get_dispatch E cache_req).2.1 = (EIO_Get_classify E cache_req).2 := by
  cases h : (EIO_Get_classify E cache_req).2 with
  | none => rw [EIO_Get_dispatch_none E cache_req h]
  | some request =>
      rw [EIO_Get_dispatch_some E cache_req request h]
      split
      · rfl
      · split <;> rfl

theorem EIO_Get_dispatch_missing_request (E : Engine X K P Q) (cache_req : cache_request X K)
    (hreq : (EIO_Get_classify E cache_req).2 = none) :
    (EIO_Get_dispatch E cache_req).2.2
      = (E.geocache_core_respond_to_error (EIO_Get_classify E cache_req).1 none).2 := by
  rw [EIO_Get_dispatch_none E cache_req hreq]

theorem EIO_Get_of_response (E : Engine X K P Q) (cache_req : cache_request X K)
    (http_response : geocache_http_response)
    (hresp : (EIO_Get_dispatch E cache_req).2.2 = some http_response) :
    EIO_Get E cache_req
      = some { cache_req with ctx := (EIO_Get_dispatch E cache_req).1,
                              response := some http_response } := by
  simp only [EIO_Get, hresp]

theorem EIO_Get_of_fallback (E : Engine X K P Q) (cache_req : cache_request X K) (request : Q)
    (hresp : (EIO_Get_dispatch E cache_req).2.2 = none)
    (hreq : (EIO_Get_dispatch E cache_req).2.1 = some request) :
    EIO_Get E cache_req
      = some { cache_req with
          ctx := (E.geocache_core_respond_to_error
            (E.set_error (EIO_Get_dispatch E cache_req).1 500 "###BUG### NULL response")
            (some (E.request_service request))).1,
          response := (E.geocache_core_respond_to_error
            (E.set_error (EIO_Get_dispatch E cache_req).1 500 "###BUG### NULL response")
            (some (E.request_service request))).2 } := by
  simp only [EIO_Get, hresp, hreq]

/-- C4: when the engine's error response is never `NULL`, `EIO_Get` returns
with a response stored in the request, for every query string, path and
behaviour of the engine. -/
theorem EIO_Get_stores_response (E : Engine X K P Q) (cache_req : cache_request X K)
    (herr : ∀ ctx service, (E.geocache_core_respond_to_error ctx service).2 ≠ none) :
    ∃ done response, EIO_Get E cache_req = some done ∧ done.response = some response := by
  cases hresp : (EIO_Get_dispatch E cache_req).2.2 with
  | some http_response =>
      exact ⟨_, http_response, EIO_Get_of_response E cache_req http_response hresp, rfl⟩
  | none =>
      cases hreq : (EIO_Get_dispatch E cache_req).2.1 with
      | none =>
          exfalso
          rw [EIO_Get_dispatch_request] at hreq
          rw [EIO_Get_dispatch_missing_request E cache_req hreq] at hresp
          exact herr _ _ hresp
      | some request =>
          obtain ⟨r, hr⟩ := Option.ne_none_iff_exists'.mp
            (herr (E.set_error (EIO_Get_dispatch E cache_req).1 500 "###BUG### NULL response")
              (some (E.request_service request)))
          exact ⟨_, r, EIO_Get_of_fallback E cache_req request hresp hreq, hr⟩

/-- C4 on the sample engine, for a map request whose operation yields no
response: the stored response is the generated error response. -/
theorem EIO_Get_stores_response_witness :
    (∀ ctx service, (sample_engine.geocache_core_respond_to_error ctx service).2 ≠ none)
    ∧ ∃ done response,
        EIO_Get sample_engine (sample_request "/map") = some done
        ∧ done.response = some response :=
  ⟨fun _ _ => by simp [sample_engine],
   EIO_Get_stores_response sample_engine (sample_request "/map")
     (fun _ _ => by simp [sample_engine])⟩

/-- C10: when the engine's error response is never `NULL`, a request that
classification left `NULL` reaches the test `!http_response` with a response
already stored by the first error branch, so the fallback branch, which reads
`request->service`, is entered only with a request that is not `NULL`. -/
theorem EIO_Get_fallback_has_request (E : Engine X K P Q) (cache_req : cache_request X K)
    (herr : ∀ ctx service, (E.geocache_core_respond_to_error ctx service).2 ≠ none) :
    (EIO_Get_dispatch E cache_req).2.1 = (EIO_Get_classify E cache_req).2
    ∧ ((EIO_Get_dispatch E cache_req).2.2 = none → (EIO_Get_classify E cache_req).2 ≠ none)
    ∧ EIO_Get E cache_req ≠ none := by
  refine ⟨EIO_Get_dispatch_request E cache_req, ?_, ?_⟩
  · intro hresp hreq
    rw [EIO_Get_dispatch_missing_request E cache_req hreq] at hresp
    exact herr _ _ hresp
  · cases hresp : (EIO_Get_dispatch E cache_req).2.2 with
    | some http_response => simp [EIO_Get_of_response E cache_req http_response hresp]
    | none =>
        cases hreq : (EIO_Get_dispatch E cache_req).2.1 with
        | none =>
            exfalso
            rw [EIO_Get_dispatch_request] at hreq
            rw [EIO_Get_dispatch_missing_request E cache_req hreq] at hresp
            exact herr _ _ hresp
        | some request => simp [EIO_Get_of_fallback E cache_req request hresp hreq]

/-- C10 on the sample engine: `/map` reaches the fallback branch (the
operation stored no response) and does so with a request, while `/nowhere`,
which has no request, never reaches it. -/
theorem EIO_Get_fallback_has_request_witness :
    (∀ ctx service, (sample_engine.geocache_core_respond_to_error ctx service).2 ≠ none)
    ∧ (EIO_Get_dispatch sample_engine (sample_request "/map")).2.2 = none
    ∧ (EIO_Get_classify sample_engine (sample_request "/map")).2 ≠ none
    ∧ (EIO_Get_classify sample_engine (sample_request "/nowhere")).2 = none
    ∧ (EIO_Get_dispatch sample_engine (sample_request "/nowhere")).2.2 ≠ none :=
  ⟨fun _ _ => by simp [sample_engine],
   by rfl,
   (EIO_Get_fallback_has_request sample_engine (sample_request "/map")
     (fun _ _ => by simp [sample_engine])).2.1 (by rfl),
   by rfl,
   fun h => (EIO_Get_fallback_has_request sample_engine (sample_request "/nowhere")
     (fun _ _ => by simp [sample_engine])).2.1 h (by rfl)⟩

theorem marshal_response_code (response : geocache_http_response) :
    Props.Get (marshal_response response) "code" = JsValue.integer response.code := by
  unfold marshal_response
  cases hd : response.data <;> cases hh : response.headers <;>
    by_cases hm : response.mtime = 0 <;> simp [hm, Props.Get_Set, Props.Get, Props.Set] <;>
    split <;> simp [Props.Get_Set, Props.Get, Props.Set]

theorem EIO_GetAfter_callback_calls (E : Engine X K P Q) (w : World X K)
    (cache_req : cache_request X K) (HasCaught : Bool) :
    callback_calls (EIO_GetAfter E w cache_req HasCaught).trace
      = callback_calls w.trace ++ [(cache_req.cb, EIO_GetAfter_argv cache_req)] := by
  rw [EIO_GetAfter_trace]
  cases HasCaught <;> simp [callback_calls_append, callback_calls]

theorem EIO_GetAfter_with_response (E : Engine X K P Q) (w : World X K)
    (done : cache_request X K) (response : geocache_http_response) (HasCaught : Bool)
    (hr : done.response = some response) :
    callback_calls (EIO_GetAfter E w done HasCaught).trace
      = callback_calls w.trace
          ++ [(done.cb, [JsValue.undefined, JsValue.object (marshal_response response)])] := by
  rw [EIO_GetAfter_callback_calls]
  simp [EIO_GetAfter_argv, hr]

/-- C5: when the engine's error response is never `NULL` and classification
reports an error, or the operation selected for the request does, `EIO_Get`
stores the error response the engine generates at that point, whatever the
operation returned, and `EIO_GetAfter` then calls the callback with
`undefined` in the error slot and, in the result slot, an object whose `code`
is that response's status code. -/
theorem EIO_Get_error_becomes_error_response (E : Engine X K P Q)
    (cache_req : cache_request X K) (w : World X K) (HasCaught : Bool)
    (herr : ∀ ctx service, (E.geocache_core_respond_to_error ctx service).2 ≠ none) :
    (E.GC_HAS_ERROR (EIO_Get_classify E cache_req).1 = true →
      ∃ response done,
        (E.geocache_core_respond_to_error (EIO_Get_classify E cache_req).1
            ((EIO_Get_classify E cache_req).2.map E.request_service)).2 = some response
        ∧ EIO_Get E cache_req = some done ∧ done.response = some response
        ∧ callback_calls (EIO_GetAfter E w done HasCaught).trace
            = callback_calls w.trace
                ++ [(cache_req.cb, [JsValue.undefined, JsValue.object (marshal_response response)])]
        ∧ Props.Get (marshal_response response) "code" = JsValue.integer response.code)
    ∧ (∀ request, (EIO_Get_classify E cache_req).2 = some request →
        E.GC_HAS_ERROR (EIO_Get_classify E cache_req).1 = false →
        E.GC_HAS_ERROR
          (EIO_Get_operation E cache_req (EIO_Get_classify E cache_req).1 request).1 = true →
        ∃ response done,
          (E.geocache_core_respond_to_error
              (EIO_Get_operation E cache_req (EIO_Get_classify E cache_req).1 request).1
              (some (E.request_service request))).2 = some response
          ∧ EIO_Get E cache_req = some done ∧ done.response = some response
          ∧ callback_calls (EIO_GetAfter E w done HasCaught).trace
              = callback_calls w.trace
                  ++ [(cache_req.cb,
                       [JsValue.undefined, JsValue.object (marshal_response response)])]
          ∧ Props.Get (marshal_response response) "code" = JsValue.integer response.code) := by
  have key : ∀ (ctx : geocache_context_fcgi X K) (service : Option Nat),
      EIO_Get_dispatch E cache_req
        = ((E.geocache_core_respond_to_error ctx service).1, (EIO_Get_classify E cache_req).2,
           (E.geocache_core_respond_to_error ctx service).2) →
      ∃ response done,
        (E.geocache_core_respond_to_error ctx service).2 = some response
        ∧ EIO_Get E cache_req = some done ∧ done.response = some response
        ∧ callback_calls (EIO_GetAfter E w done HasCaught).trace
            = callback_calls w.trace
                ++ [(cache_req.cb, [JsValue.undefined, JsValue.object (marshal_response response)])]
        ∧ Props.Get (marshal_response response) "code" = JsValue.integer response.code := by
    intro ctx service hd
    obtain ⟨r, hr⟩ := Option.ne_none_iff_exists'.mp (herr ctx service)
    have hresp : (EIO_Get_dispatch E cache_req).2.2 = some r := by rw [hd]; exact hr
    refine ⟨r, _, hr, EIO_Get_of_response E cache_req r hresp, rfl, ?_, marshal_response_code r⟩
    exact EIO_GetAfter_with_response E w _ r HasCaught rfl
  constructor
  · intro hcls
    cases hreq : (EIO_Get_classify E cache_req).2 with
    | none =>
        apply key
        rw [EIO_Get_dispatch_none E cache_req hreq]
        simp [hreq]
    | some request =>
        apply key
        rw [EIO_Get_dispatch_some E cache_req request hreq, if_pos hcls]
        simp [hreq]
  · intro request hreq hcls hop
    apply key
    rw [EIO_Get_dispatch_some E cache_req request hreq]
    simp [hcls, hop, hreq]

/-- C5 on the sample engine: `/nowhere` fails classification with 404 and
`/tile` fails in the tile operation with 404 although the operation returned
a response with code 200; in both the stored response is the generated one
with code 404. -/
theorem EIO_Get_error_becomes_error_response_witness :
    (∀ ctx service, (sample_engine.geocache_core_respond_to_error ctx service).2 ≠ none)
    ∧ sample_engine.GC_HAS_ERROR (EIO_Get_classify sample_engine (sample_request "/nowhere")).1
        = true
    ∧ (∃ response done,
        EIO_Get sample_engine (sample_request "/nowhere") = some done
        ∧ done.response = some response
        ∧ callback_calls (EIO_GetAfter sample_engine sample_world done false).trace
            = [(JsValue.function 1,
                [JsValue.undefined, JsValue.object (marshal_response response)])]
        ∧ Props.Get (marshal_response response) "code" = JsValue.integer response.code)
    ∧ (EIO_Get sample_engine (sample_request "/tile")).map (fun done => done.response)
        = some (some { code := 404, mtime := 0, data := none, headers := none }) := by
  refine ⟨fun _ _ => by simp [sample_engine], by rfl, ?_, by rfl⟩
  obtain ⟨response, done, _, h2, h3, h4, h5⟩ :=
    (EIO_Get_error_becomes_error_response sample_engine (sample_request "/nowhere")
      sample_world false (fun _ _ => by simp [sample_engine])).1 (by rfl)
  exact ⟨response, done, h2, h3, h4, h5⟩

/-- C6 (code defect): constructing the handle on `/nonexistent/geocache.xml`,
which fails to parse, throws `Error("failed to parse configuration file")`,
and on `/etc/unlinked.xml`, which fails the post-configuration pass, throws
`Error("post-config failed")`; neither message contains the path, which goes
to the log on stderr only. -/
theorem New_error_message_omits_path :
    (New sample_engine sample_world [JsValue.string "/nonexistent/geocache.xml"] alloc_ok 7).2
        = Completion.thrown (JsValue.error "failed to parse configuration file")
    ∧ ¬ ("/nonexistent/geocache.xml".data <:+: "failed to parse configuration file".data)
    ∧ (New sample_engine sample_world [JsValue.string "/etc/unlinked.xml"] alloc_ok 7).2
        = Completion.thrown (JsValue.error "post-config failed")
    ∧ ¬ ("/etc/unlinked.xml".data <:+: "post-config failed".data)
    ∧ (New sample_engine sample_world [JsValue.string "/nonexistent/geocache.xml"] alloc_ok 7).1.trace
        = [Event.cout "Instantiating",
           Event.stderr "geocache node conf file: /nonexistent/geocache.xml",
           Event.stderr "failed to parse /nonexistent/geocache.xml: failed to open file"] := by
  refine ⟨by rfl, ?_, by rfl, ?_, by rfl⟩
  · intro h
    have hmem : '/' ∈ "failed to parse configuration file".data :=
      h.subset (by decide)
    revert hmem
    decide
  · intro h
    have hmem : '/' ∈ "post-config failed".data := h.subset (by decide)
    revert hmem
    decide

theorem REQ_STR_ARG_ok (args : List JsValue) (I : Nat) (s : String)
    (h : REQ_STR_ARG args I = Except.ok s) : (args.getD I JsValue.undefined).IsString = true := by
  unfold REQ_STR_ARG at h
  split at h
  · cases h
  · split at h
    · rename_i heq
      rw [heq]; rfl
    · cases h

theorem REQ_FUN_ARG_ok (args : List JsValue) (I : Nat) (f : JsValue)
    (h : REQ_FUN_ARG args I = Except.ok f) :
    (args.getD I JsValue.undefined).IsFunction = true := by
  unfold REQ_FUN_ARG at h
  split at h
  · cases h
  · split at h
    · rename_i heq
      rw [heq]; rfl
    · cases h

/-- C7: a call of `get` with an argument count other than 4, or with one of the
first three arguments not a string, or with a fourth argument that is not a
function, throws and leaves the process as it was: no pool created, every
reference count unchanged, nothing handed to libeio, no callback invoked. -/
theorem GetAsync_argument_error (E : Engine X K P Q) (w : World X K) (cache : GeoCache X K)
    (args : List JsValue) (a : Alloc)
    (h : args.length ≠ 4
      ∨ (args.getD 0 JsValue.undefined).IsString = false
      ∨ (args.getD 1 JsValue.undefined).IsString = false
      ∨ (args.getD 2 JsValue.undefined).IsString = false
      ∨ (args.getD 3 JsValue.undefined).IsFunction = false) :
    (GetAsync E w cache args a).1 = w
    ∧ ∃ exception, (GetAsync E w cache args a).2 = Completion.thrown exception := by
  unfold GetAsync
  by_cases hlen : args.length ≠ 4
  · rw [if_pos hlen]; exact ⟨rfl, _, rfl⟩
  · rw [if_neg hlen]
    cases h0 : REQ_STR_ARG args 0 with
    | error e => exact ⟨rfl, _, rfl⟩
    | ok baseUrl =>
    cases h1 : REQ_STR_ARG args 1 with
    | error e => exact ⟨rfl, _, rfl⟩
    | ok pathInfo =>
    cases h2 : REQ_STR_ARG args 2 with
    | error e => exact ⟨rfl, _, rfl⟩
    | ok queryString =>
    cases h3 : REQ_FUN_ARG args 3 with
    | error e => exact ⟨rfl, _, rfl⟩
    | ok cb =>
        exfalso
        have e0 := REQ_STR_ARG_ok args 0 baseUrl h0
        have e1 := REQ_STR_ARG_ok args 1 pathInfo h1
        have e2 := REQ_STR_ARG_ok args 2 queryString h2
        have e3 := REQ_FUN_ARG_ok args 3 cb h3
        rcases h with h | h | h | h | h
        · exact hlen h
        · rw [e0] at h; cases h
        · rw [e1] at h; cases h
        · rw [e2] at h; cases h
        · rw [e3] at h; cases h

/-- C7 on a call with three arguments and on a call whose callback is a
string: each throws and the process is as before. -/
theorem GetAsync_argument_error_witness :
    ([JsValue.string "http://x/", JsValue.string "/wms", JsValue.string "SERVICE=WMS"].length ≠ 4)
    ∧ GetAsync sample_engine sample_world sample_cache
        [JsValue.string "http://x/", JsValue.string "/wms", JsValue.string "SERVICE=WMS"] alloc_ok
        = (sample_world, Completion.thrown
            (JsValue.error "usage: cache.get(baseUrl, pathInfo, queryString, callback)"))
    ∧ (GetAsync sample_engine sample_world sample_cache
        [JsValue.string "http://x/", JsValue.string "/wms", JsValue.string "SERVICE=WMS",
         JsValue.string "cb"] alloc_ok).1 = sample_world :=
  ⟨by decide, by rfl,
   (GetAsync_argument_error sample_engine sample_world sample_cache
      [JsValue.string "http://x/", JsValue.string "/wms", JsValue.string "SERVICE=WMS",
       JsValue.string "cb"] alloc_ok (Or.inr (Or.inr (Or.inr (Or.inr rfl))))).1⟩

/-- C8 (counterexample): in a build without `DEBUG`, on an operating system
whose calls all succeed, a second acquire on a handle already held makes the
APR calls again and returns with no error set, the handle now referring to the
second file opened rather than the first. -/
theorem mutex_acquire_twice_without_DEBUG :
    (geocache_fcgi_mutex_aquire false sample_engine sample_apr sample_lock).ctx.mutex_file
        = some 1
    ∧ geocache_fcgi_mutex_aquire false sample_engine sample_apr
          (geocache_fcgi_mutex_aquire false sample_engine sample_apr sample_lock)
        = { os := 2,
            ctx := { sample_ctx 1 with mutex_file := some 2 },
            calls := [AprCall.apr_file_open "/tmp/geocache.fcgi.lock", AprCall.apr_file_lock 1,
                      AprCall.apr_file_open "/tmp/geocache.fcgi.lock", AprCall.apr_file_lock 2] }
    ∧ sample_engine.GC_HAS_ERROR
        (geocache_fcgi_mutex_aquire false sample_engine sample_apr
          (geocache_fcgi_mutex_aquire false sample_engine sample_apr sample_lock)).ctx = false
    ∧ (geocache_fcgi_mutex_aquire false sample_engine sample_apr
          (geocache_fcgi_mutex_aquire false sample_engine sample_apr sample_lock)).calls
        ≠ (geocache_fcgi_mutex_aquire false sample_engine sample_apr sample_lock).calls := by
  refine ⟨by rfl, by rfl, by rfl, ?_⟩
  decide

/-- C8 (amended): in a build with `DEBUG` defined, acquire on a held handle
and release on a handle not held report an error through `set_error` and do
nothing else (no APR call, the handle's file unchanged); in a build without
`DEBUG` acquire has no such check, and when the open and the lock succeed it
returns with no error set and the handle referring to the file just opened. -/
theorem mutex_misuse_reported_under_DEBUG {O : Type} (E : Engine X K P Q) (A : Apr O)
    (s : LockState O X K) :
    (s.ctx.mutex_file ≠ none →
      geocache_fcgi_mutex_aquire true E A s
        = { s with ctx := E.set_error s.ctx 500 "SEVERE: fcgi recursive mutex acquire" })
    ∧ (s.ctx.mutex_file = none →
      geocache_fcgi_mutex_release true E A s
        = some { s with
            ctx := E.set_error s.ctx 500 "SEVERE: fcgi mutex unlock on unlocked file" })
    ∧ (∀ file, (A.apr_file_open s.os s.ctx.mutex_fname).2 = some file →
        (A.apr_file_lock (A.apr_file_open s.os s.ctx.mutex_fname).1 file).2 = true →
        geocache_fcgi_mutex_aquire false E A s
          = { os := (A.apr_file_lock (A.apr_file_open s.os s.ctx.mutex_fname).1 file).1,
              ctx := { s.ctx with mutex_file := some file },
              calls := s.calls ++ [AprCall.apr_file_open s.ctx.mutex_fname,
                                   AprCall.apr_file_lock file] }) := by
  refine ⟨?_, ?_, ?_⟩
  · intro h
    have : s.ctx.mutex_file.isSome = true := by
      cases hm : s.ctx.mutex_file with
      | none => exact absurd hm h
      | some f => rfl
    simp [geocache_fcgi_mutex_aquire, this]
  · intro h
    simp [geocache_fcgi_mutex_release, h]
  · intro file hopen hlock
    simp [geocache_fcgi_mutex_aquire, hopen, hlock]

/-- C8 (amended) on the sample operating system: with `DEBUG` the second
acquire and a release on the fresh handle set error 500 and make no APR call;
without `DEBUG` the second acquire opens and locks file 2. -/
theorem mutex_misuse_reported_under_DEBUG_witness :
    (geocache_fcgi_mutex_aquire true sample_engine sample_apr sample_lock).ctx.mutex_file ≠ none
    ∧ geocache_fcgi_mutex_aquire true sample_engine sample_apr
          (geocache_fcgi_mutex_aquire true sample_engine sample_apr sample_lock)
        = { os := 1,
            ctx := { ctx := { pool := 1, config := some "/etc/geocache.xml",
                              priv := [(500, "SEVERE: fcgi recursive mutex acquire")] },
                     mutex_fname := "/tmp/geocache.fcgi.lock", mutex_file := some 1 },
            calls := [AprCall.apr_file_open "/tmp/geocache.fcgi.lock", AprCall.apr_file_lock 1] }
    ∧ sample_lock.ctx.mutex_file = none
    ∧ geocache_fcgi_mutex_release true sample_engine sample_apr sample_lock
        = some { sample_lock with
            ctx := sample_engine.set_error sample_lock.ctx 500
              "SEVERE: fcgi mutex unlock on unlocked file" }
    ∧ (geocache_fcgi_mutex_aquire false sample_engine sample_apr
          (geocache_fcgi_mutex_aquire true sample_engine sample_apr sample_lock)).ctx.mutex_file
        = some 2 := by
  have h := mutex_misuse_reported_under_DEBUG sample_engine sample_apr
    (geocache_fcgi_mutex_aquire true sample_engine sample_apr sample_lock)
  have h' := mutex_misuse_reported_under_DEBUG sample_engine sample_apr sample_lock
  refine ⟨by decide, ?_, rfl, h'.2.1 rfl, ?_⟩
  · rw [h.1 (by decide)]; rfl
  · rw [h.2.2 2 rfl rfl]

theorem GetAsync_submit_cases (E : Engine X K P Q) (w : World X K) (cache : GeoCache X K)
    (baseUrl pathInfo queryString : String) (cb : JsValue) (a : Alloc) :
    ((GetAsync_submit E w cache baseUrl pathInfo queryString cb a).1.refs = w.refs
      ∧ (GetAsync_submit E w cache baseUrl pathInfo queryString cb a).1.eio_queue = w.eio_queue
      ∧ ∀ value, (GetAsync_submit E w cache baseUrl pathInfo queryString cb a).2
          ≠ Completion.returned value)
    ∨ ∃ cache_req,
        (GetAsync_submit E w cache baseUrl pathInfo queryString cb a).2
          = Completion.returned JsValue.undefined
        ∧ (GetAsync_submit E w cache baseUrl pathInfo queryString cb a).1.refs
          = Function.update w.refs cache.id (w.refs cache.id + 1)
        ∧ (GetAsync_submit E w cache baseUrl pathInfo queryString cb a).1.eio_queue
          = w.eio_queue ++ [cache_req]
        ∧ cache_req.cache = cache
        ∧ (GetAsync_submit E w cache baseUrl pathInfo queryString cb a).1.trace
          = w.trace ++ [Event.apr_pool_create w.next_pool, Event.Persistent_New cb,
                        Event.Ref cache.id, Event.eio_custom w.next_pool, Event.ev_ref] := by
  unfold GetAsync_submit
  cases hp : a.apr_pool_create with
  | false => left; simp [World.apr_pool_create, hp]
  | true =>
    cases hc : a.cache_request with
    | false => left; simp [World.apr_pool_create, hp, hc, World.apr_pool_destroy]
    | true =>
      cases hx : fcgi_context_create E a.context w.next_pool with
      | none => left; simp [World.apr_pool_create, hp, hc, hx, World.apr_pool_destroy]
      | some req_ctx =>
        cases hcc : cache.ctx with
        | none => left; simp [World.apr_pool_create, hp, hc, hx, hcc]
        | some cache_ctx =>
          cases hb : a.baseUrl with
          | false =>
              left
              simp [World.apr_pool_create, hp, hc, hx, hcc, hb, World.apr_pool_destroy, World.emit]
          | true =>
            cases hpi : a.pathInfo with
            | false =>
                left
                simp [World.apr_pool_create, hp, hc, hx, hcc, hb, hpi, World.apr_pool_destroy,
                  World.emit]
            | true =>
              cases hq : a.queryString with
              | false =>
                  left
                  simp [World.apr_pool_create, hp, hc, hx, hcc, hb, hpi, hq,
                    World.apr_pool_destroy, World.emit]
              | true =>
                  right
                  simp [World.apr_pool_create, hp, hc, hx, hcc, hb, hpi, hq, World.emit,
                    World.Ref]

theorem GetAsync_cases (E : Engine X K P Q) (w : World X K) (cache : GeoCache X K)
    (args : List JsValue) (a : Alloc) :
    ((GetAsync E w cache args a).1.refs = w.refs
      ∧ (GetAsync E w cache args a).1.eio_queue = w.eio_queue
      ∧ ∀ value, (GetAsync E w cache args a).2 ≠ Completion.returned value)
    ∨ ∃ cache_req cb,
        (GetAsync E w cache args a).2 = Completion.returned JsValue.undefined
        ∧ (GetAsync E w cache args a).1.refs
          = Function.update w.refs cache.id (w.refs cache.id + 1)
        ∧ (GetAsync E w cache args a).1.eio_queue = w.eio_queue ++ [cache_req]
        ∧ cache_req.cache = cache
        ∧ (GetAsync E w cache args a).1.trace
          = w.trace ++ [Event.apr_pool_create w.next_pool, Event.Persistent_New cb,
                        Event.Ref cache.id, Event.eio_custom w.next_pool, Event.ev_ref] := by
  unfold GetAsync
  by_cases hlen : args.length ≠ 4
  · left; rw [if_pos hlen]; simp
  · rw [if_neg hlen]
    cases h0 : REQ_STR_ARG args 0 with
    | error e => left; simp
    | ok baseUrl =>
    cases h1 : REQ_STR_ARG args 1 with
    | error e => left; simp
    | ok pathInfo =>
    cases h2 : REQ_STR_ARG args 2 with
    | error e => left; simp
    | ok queryString =>
    cases h3 : REQ_FUN_ARG args 3 with
    | error e => left; simp
    | ok cb =>
        rcases GetAsync_submit_cases E w cache baseUrl pathInfo queryString cb a with h | h
        · left; exact h
        · right
          obtain ⟨cache_req, h⟩ := h
          exact ⟨cache_req, cb, h⟩

theorem countP_eraseIdx_add {α : Type} (p : α → Bool) :
    ∀ (l : List α) (i : Nat) (x : α), l.get? i = some x →
      List.countP p (l.eraseIdx i) + (if p x then 1 else 0) = List.countP p l := by
  intro l
  induction l with
  | nil => intro i x h; simp at h
  | cons y rest ih =>
      intro i x h
      cases i with
      | zero =>
          simp at h
          subst h
          simp [List.countP_cons]
      | succ j =>
          simp at h
          have := ih j x (by simpa using h)
          simp only [List.eraseIdx_cons_succ, List.countP_cons]
          omega

theorem EIO_GetAfter_refs (E : Engine X K P Q) (w : World X K) (cache_req : cache_request X K)
    (HasCaught : Bool) :
    (EIO_GetAfter E w cache_req HasCaught).refs
        = Function.update w.refs cache_req.cache.id (w.refs cache_req.cache.id - 1)
    ∧ (EIO_GetAfter E w cache_req HasCaught).eio_queue = w.eio_queue := by
  cases HasCaught <;>
    simp [EIO_GetAfter, World.emit, World.Unref, World.apr_pool_destroy]

theorem balanced_step (E : Engine X K P Q) (base : Nat → Nat) (w : World X K) (s : Step X K)
    (h : balanced base w) : balanced base (step E w s) := by
  cases s with
  | get cache args a =>
      simp only [step]
      rcases GetAsync_cases E w cache args a with ⟨hr, hq, _⟩ | ⟨cache_req, cb, _, hr, hq, hc, _⟩
      · intro gc
        simp only [in_flight, hr, hq]
        exact h gc
      · intro gc
        simp only [in_flight, hr, hq, List.countP_append]
        have hg := h gc
        simp only [in_flight] at hg
        by_cases hgc : cache.id = gc
        · subst hgc
          simp [hc, hg, List.countP_cons]
          omega
        · have hne : gc ≠ cache.id := fun e => hgc e.symm
          simp [Function.update_noteq hne, hc, hgc, hg, List.countP_cons]
  | complete i response HasCaught =>
      simp only [step]
      cases hget : w.eio_queue.get? i with
      | none => exact h
      | some cache_req =>
          simp only
          intro gc
          obtain ⟨hr, hq⟩ := EIO_GetAfter_refs E { w with eio_queue := w.eio_queue.eraseIdx i }
            { cache_req with response := response } HasCaught
          simp only [in_flight, hr, hq]
          have hcnt := countP_eraseIdx_add (fun r : cache_request X K => decide (r.cache.id = gc))
            w.eio_queue i cache_req hget
          have hg := h gc
          simp only [in_flight] at hg
          by_cases hgc : cache_req.cache.id = gc
          · subst hgc
            simp at hcnt
            simp
            omega
          · have hne : gc ≠ cache_req.cache.id := fun e => hgc e.symm
            simp [hgc] at hcnt
            simp [Function.update_noteq hne]
            omega

theorem balanced_run (E : Engine X K P Q) (base : Nat → Nat) (steps : List (Step X K)) :
    ∀ w : World X K, balanced base w → balanced base (run E w steps) := by
  induction steps with
  | nil => intro w h; exact h
  | cons s rest ih =>
      intro w h
      exact ih (step E w s) (balanced_step E base w s h)

/-- C9: starting with nothing in flight, after any sequence of calls of `get`
and completions each handle's reference count is its initial value plus the
number of its requests still in flight.  Step by step: a call of `get` that
does not return normally (argument error, allocation failure) leaves every
count and the queue as they were; a call that returns has incremented the
handle's count once, and did so before handing the request to libeio
(`Ref` precedes `eio_custom` among the calls made); `EIO_GetAfter` decrements
the count of the request's handle once. -/
theorem reference_count_balanced (E : Engine X K P Q) (w : World X K) (steps : List (Step X K))
    (h0 : w.eio_queue = []) :
    (∀ gc, (run E w steps).refs gc = w.refs gc + in_flight (run E w steps) gc)
    ∧ (∀ (v : World X K) (cache : GeoCache X K) (args : List JsValue) (a : Alloc),
        ((∀ value, (GetAsync E v cache args a).2 ≠ Completion.returned value) →
          (GetAsync E v cache args a).1.refs = v.refs
          ∧ (GetAsync E v cache args a).1.eio_queue = v.eio_queue)
        ∧ (∀ value, (GetAsync E v cache args a).2 = Completion.returned value →
          ∃ cache_req cb,
            (GetAsync E v cache args a).1.refs
              = Function.update v.refs cache.id (v.refs cache.id + 1)
            ∧ (GetAsync E v cache args a).1.eio_queue = v.eio_queue ++ [cache_req]
            ∧ cache_req.cache = cache
            ∧ (GetAsync E v cache args a).1.trace
              = v.trace ++ [Event.apr_pool_create v.next_pool, Event.Persistent_New cb,
                            Event.Ref cache.id, Event.eio_custom v.next_pool, Event.ev_ref]))
    ∧ (∀ (v : World X K) (cache_req : cache_request X K) (HasCaught : Bool),
        (EIO_GetAfter E v cache_req HasCaught).refs
          = Function.update v.refs cache_req.cache.id (v.refs cache_req.cache.id - 1)
        ∧ (EIO_GetAfter E v cache_req HasCaught).trace
          = v.trace ++ [Event.ev_unref, Event.Call cache_req.cb (EIO_GetAfter_argv cache_req)]
              ++ (if HasCaught then [Event.FatalException] else [])
              ++ [Event.Dispose cache_req.cb, Event.Unref cache_req.cache.id,
                  Event.apr_pool_destroy (E.clear_errors cache_req.ctx).ctx.pool]) := by
  refine ⟨?_, ?_, ?_⟩
  · have hbase : balanced w.refs w := by
      intro gc
      simp [in_flight, h0]
    exact balanced_run E w.refs steps w hbase
  · intro v cache args a
    rcases GetAsync_cases E v cache args a with ⟨hr, hq, hn⟩ | ⟨cache_req, cb, hret, h⟩
    · exact ⟨fun _ => ⟨hr, hq⟩, fun value hv => absurd hv (hn value)⟩
    · exact ⟨fun hn => absurd hret (hn _), fun _ _ => ⟨cache_req, cb, h⟩⟩
  · intro v cache_req HasCaught
    exact ⟨(EIO_GetAfter_refs E v cache_req HasCaught).1, EIO_GetAfter_trace E v cache_req HasCaught⟩

/-- C9 on the sample process: two admitted calls of `get`, one call with three
arguments, then the completion of the first request leave the handle at
address 7 with a count of 1 and one request in flight. -/
theorem reference_count_balanced_witness :
    sample_world.eio_queue = []
    ∧ (run sample_engine sample_world
        [Step.get sample_cache
           [JsValue.string "http://x/", JsValue.string "/wms", JsValue.string "SERVICE=WMS",
            JsValue.function 1] alloc_ok,
         Step.get sample_cache
           [JsValue.string "http://x/", JsValue.string "/tile", JsValue.string "",
            JsValue.function 2] alloc_ok,
         Step.get sample_cache
           [JsValue.string "http://x/", JsValue.string "/tile", JsValue.string ""] alloc_ok,
         Step.complete 0 none false]).refs 7 = 1
    ∧ in_flight (run sample_engine sample_world
        [Step.get sample_cache
           [JsValue.string "http://x/", JsValue.string "/wms", JsValue.string "SERVICE=WMS",
            JsValue.function 1] alloc_ok,
         Step.get sample_cache
           [JsValue.string "http://x/", JsValue.string "/tile", JsValue.string "",
            JsValue.function 2] alloc_ok,
         Step.get sample_cache
           [JsValue.string "http://x/", JsValue.string "/tile", JsValue.string ""] alloc_ok,
         Step.complete 0 none false]) 7 = 1 := by
  refine ⟨rfl, by rfl, ?_⟩
  have h := (reference_count_balanced sample_engine sample_world
        [Step.get sample_cache
           [JsValue.string "http://x/", JsValue.string "/wms", JsValue.string "SERVICE=WMS",
            JsValue.function 1] alloc_ok,
         Step.get sample_cache
           [JsValue.string "http://x/", JsValue.string "/tile", JsValue.string "",
            JsValue.function 2] alloc_ok,
         Step.get sample_cache
           [JsValue.string "http://x/", JsValue.string "/tile", JsValue.string ""] alloc_ok,
         Step.complete 0 none false] rfl).1 7
  have hrefs : (run sample_engine sample_world
        [Step.get sample_cache
           [JsValue.string "http://x/", JsValue.string "/wms", JsValue.string "SERVICE=WMS",
            JsValue.function 1] alloc_ok,
         Step.get sample_cache
           [JsValue.string "http://x/", JsValue.string "/tile", JsValue.string "",
            JsValue.function 2] alloc_ok,
         Step.get sample_cache
           [JsValue.string "http://x/", JsValue.string "/tile", JsValue.string ""] alloc_ok,
         Step.complete 0 none false]).refs 7 = 1 := by rfl
  rw [hrefs] at h
  have h00 : sample_world.refs 7 = 0 := rfl
  rw [h00] at h
  omega

end GeoCacheNode
